import Mathlib

/-!
Verification of the multimedia-metadata service in `src/main.py`.

The service is a FastAPI application over MongoDB (motor) with three
collections (`sprites`, `audio`, `scores`) and thirteen endpoints.  This file
shallow-embeds the per-request datastore state, the Mongo primitives the code
invokes (`insert_one`, `find_one`, `update_one` with a full-document `$set`,
`delete_one`), the bson `ObjectId` string parsing and printing, the Pydantic
`PlayerScore` validation, and each request handler, and proves the claimed
properties about them.
-/

namespace MultimediaService

/-- Value of a single hexadecimal character, as accepted by bson when a
24-character identifier string is parsed (both letter cases are accepted). -/
def hexVal? (c : Char) : Option Nat :=
  if 48 ≤ c.toNat ∧ c.toNat ≤ 57 then some (c.toNat - 48)
  else if 97 ≤ c.toNat ∧ c.toNat ≤ 102 then some (c.toNat - 87)
  else if 65 ≤ c.toNat ∧ c.toNat ≤ 70 then some (c.toNat - 55)
  else none

/-- Whether a character is a hexadecimal digit. -/
def isHexChar (c : Char) : Bool := (hexVal? c).isSome

/-- Value of a hexadecimal character, defaulting to 0. -/
def hexVal (c : Char) : Nat := (hexVal? c).getD 0

/-- Big-endian fixed-width hexadecimal digits of a natural number, lowercase,
as produced by `str(ObjectId)` for the 12-byte identifier. -/
def toHexDigits : Nat → Nat → List Char
  | 0, _ => []
  | w + 1, n => toHexDigits w (n / 16) ++ [Nat.digitChar (n % 16)]

/-- The string form of a store identifier: `str(result.inserted_id)` in the
handlers, a 24-character lowercase hexadecimal rendering. -/
def oidToString (n : Nat) : String := String.mk (toHexDigits 24 n)

/-- Model of the bson `ObjectId(id)` constructor on a string argument: it
succeeds exactly on 24-character hexadecimal strings, yielding the numeric
identifier; on any other string it raises `bson.errors.InvalidId`. -/
def parseObjectId? (s : String) : Option Nat :=
  if s.data.length = 24 ∧ s.data.all isHexChar then
    some (s.data.foldl (fun a c => a * 16 + hexVal c) 0)
  else none

/-- Document stored in the `sprites` and `audio` collections: the handlers
build `\x7b"filename": file.filename, "content": content\x7d`.  The binary
content is modelled as a list of bytes. -/
structure FileDoc where
  filename : String
  content : List Nat
deriving Repr, DecidableEq

/-- The Pydantic `PlayerScore` model: `player_name` and `score` fields.  Its
`Field` constraints are in `PlayerScore.valid` below. -/
structure PlayerScore where
  player_name : String
  score : Int
deriving Repr, DecidableEq

/-- The Pydantic constraints on `PlayerScore`:
`player_name: min_length=1, max_length=50` and `score: ge=0, le=999999`.
FastAPI enforces them on the decoded body before the handler body runs. -/
def PlayerScore.valid (r : PlayerScore) : Bool :=
  1 ≤ r.player_name.length && r.player_name.length ≤ 50 &&
    0 ≤ r.score && r.score ≤ 999999

/-- A Mongo collection: documents keyed by their numeric identifier, in
insertion order. -/
abbrev Collection (α : Type) := List (Nat × α)

/-- The `multimedia_db` database state: the three collections the handlers
touch, plus the next store-assigned identifier. -/
structure DB where
  sprites : Collection FileDoc
  audio : Collection FileDoc
  scores : Collection PlayerScore
  nextId : Nat
deriving Repr, DecidableEq

/-- A database with all three collections empty. -/
def emptyDB : DB := ⟨[], [], [], 0⟩

/-- A database holding one sprite, one audio file and one score, each stored
under identifier 1. -/
def oneDocDB : DB :=
  ⟨[(1, ⟨"hero.png", [9, 9]⟩)], [(1, ⟨"theme.mp3", [8]⟩)],
    [(1, ⟨"Ada", 3⟩)], 2⟩

/-- Model of `insert_one`: appends the document under the store-assigned
identifier and reports that identifier as `inserted_id`. -/
def insertOne {α : Type} (c : Collection α) (nid : Nat) (d : α) : Collection α :=
  c ++ [(nid, d)]

/-- Model of `find_one` with an `_id` filter: the first document whose
identifier matches, if any. -/
def findOne {α : Type} (c : Collection α) (oid : Nat) : Option α :=
  match c with
  | [] => none
  | p :: rest => if p.1 = oid then some p.2 else findOne rest oid

/-- Model of `update_one` with an `_id` filter and a `$set` of every schema
field: replaces the fields of the first matching document (its identifier is
untouched) and returns the new collection with `matched_count`. -/
def updateOne {α : Type} (c : Collection α) (oid : Nat) (d : α) :
    Collection α × Nat :=
  match c with
  | [] => ([], 0)
  | p :: rest =>
    if p.1 = oid then ((p.1, d) :: rest, 1)
    else
      let r := updateOne rest oid d
      (p :: r.1, r.2)

/-- Model of `delete_one` with an `_id` filter: removes the first matching
document and returns the new collection with `deleted_count`. -/
def deleteOne {α : Type} (c : Collection α) (oid : Nat) :
    Collection α × Nat :=
  match c with
  | [] => ([], 0)
  | p :: rest =>
    if p.1 = oid then (rest, 1)
    else
      let r := deleteOne rest oid
      (p :: r.1, r.2)

/-- The JSON payload shapes returned by the handlers. -/
inductive Payload where
  | uploaded (message : String) (id : String)
  | filenameOnly (filename : String)
  | message (message : String)
  | scoreOut (player_name : String) (score : Int)
deriving Repr, DecidableEq

/-- Outcome of one request as seen by the client.  `httpError` is a raised
`HTTPException(status_code, detail)`; `invalidIdError` is the uncaught
`bson.errors.InvalidId` exception from `ObjectId(id)`, which FastAPI turns
into a plain 500 response. -/
inductive Resp (α : Type) where
  | ok (payload : α)
  | httpError (status : Nat) (detail : String)
  | invalidIdError
deriving Repr, DecidableEq

/-- HTTP status code of a handler outcome: 200 for a returned payload, the
raised status for `HTTPException`, 500 for an unhandled exception. -/
def statusOf {α : Type} : Resp α → Nat
  | Resp.ok _ => 200
  | Resp.httpError s _ => s
  | Resp.invalidIdError => 500

/-- Whether a status code is in the client-error class 4xx. -/
def isClientError (s : Nat) : Bool := 400 ≤ s && s < 500

/-- Handler `upload_sprite` (POST /upload_sprite): reads the file, inserts
`\x7bfilename, content\x7d` into `sprites`, returns the new id as a string. -/
def upload_sprite (filename : String) (content : List Nat) (db : DB) :
    Resp Payload × DB :=
  let db' := { db with
    sprites := insertOne db.sprites db.nextId ⟨filename, content⟩,
    nextId := db.nextId + 1 }
  (Resp.ok (Payload.uploaded "Sprite uploaded" (oidToString db.nextId)), db')

/-- Handler `get_sprite` (GET /sprites/id): parses the identifier, fetches by
id, 404 when absent, else returns only the filename. -/
def get_sprite (id : String) (db : DB) : Resp Payload × DB :=
  match parseObjectId? id with
  | none => (Resp.invalidIdError, db)
  | some oid =>
    match findOne db.sprites oid with
    | none => (Resp.httpError 404 "Sprite not found", db)
    | some d => (Resp.ok (Payload.filenameOnly d.filename), db)

/-- Handler `update_sprite` (PUT /sprites/id): parses the identifier, runs
`update_one` with a `$set` of filename and content, 404 when
`matched_count == 0`. -/
def update_sprite (id : String) (filename : String) (content : List Nat)
    (db : DB) : Resp Payload × DB :=
  match parseObjectId? id with
  | none => (Resp.invalidIdError, db)
  | some oid =>
    let r := updateOne db.sprites oid ⟨filename, content⟩
    let db' := { db with sprites := r.1 }
    if r.2 = 0 then (Resp.httpError 404 "Sprite not found", db')
    else (Resp.ok (Payload.message "Sprite updated"), db')

/-- Handler `delete_sprite` (DELETE /sprites/id): parses the identifier, runs
`delete_one`, 404 when `deleted_count == 0`. -/
def delete_sprite (id : String) (db : DB) : Resp Payload × DB :=
  match parseObjectId? id with
  | none => (Resp.invalidIdError, db)
  | some oid =>
    let r := deleteOne db.sprites oid
    let db' := { db with sprites := r.1 }
    if r.2 = 0 then (Resp.httpError 404 "Sprite not found", db')
    else (Resp.ok (Payload.message "Sprite deleted"), db')

/-- Handler `upload_audio` (POST /upload_audio), mirroring `upload_sprite` on
the `audio` collection. -/
def upload_audio (filename : String) (content : List Nat) (db : DB) :
    Resp Payload × DB :=
  let db' := { db with
    audio := insertOne db.audio db.nextId ⟨filename, content⟩,
    nextId := db.nextId + 1 }
  (Resp.ok (Payload.uploaded "Audio file uploaded" (oidToString db.nextId)), db')

/-- Handler `get_audio` (GET /audio/id), mirroring `get_sprite`. -/
def get_audio (id : String) (db : DB) : Resp Payload × DB :=
  match parseObjectId? id with
  | none => (Resp.invalidIdError, db)
  | some oid =>
    match findOne db.audio oid with
    | none => (Resp.httpError 404 "Audio not found", db)
    | some d => (Resp.ok (Payload.filenameOnly d.filename), db)

/-- Handler `update_audio` (PUT /audio/id), mirroring `update_sprite`. -/
def update_audio (id : String) (filename : String) (content : List Nat)
    (db : DB) : Resp Payload × DB :=
  match parseObjectId? id with
  | none => (Resp.invalidIdError, db)
  | some oid =>
    let r := updateOne db.audio oid ⟨filename, content⟩
    let db' := { db with audio := r.1 }
    if r.2 = 0 then (Resp.httpError 404 "Audio not found", db')
    else (Resp.ok (Payload.message "Audio updated"), db')

/-- Handler `delete_audio` (DELETE /audio/id), mirroring `delete_sprite`. -/
def delete_audio (id : String) (db : DB) : Resp Payload × DB :=
  match parseObjectId? id with
  | none => (Resp.invalidIdError, db)
  | some oid =>
    let r := deleteOne db.audio oid
    let db' := { db with audio := r.1 }
    if r.2 = 0 then (Resp.httpError 404 "Audio not found", db')
    else (Resp.ok (Payload.message "Audio deleted"), db')

/-- Handler `add_score` (POST /player_score).  FastAPI validates the decoded
body against `PlayerScore` before the handler body runs and answers 422 on a
violation without touching the store; on success the handler inserts
`score.dict()` into `scores`. -/
def add_score (sc : PlayerScore) (db : DB) : Resp Payload × DB :=
  if sc.valid then
    let db' := { db with
      scores := insertOne db.scores db.nextId sc,
      nextId := db.nextId + 1 }
    (Resp.ok (Payload.uploaded "Score recorded" (oidToString db.nextId)), db')
  else (Resp.httpError 422 "validation error", db)

/-- Handler `get_score` (GET /player_score/id): parses the identifier, fetches
by id, 404 when absent, else returns the stored name and score. -/
def get_score (id : String) (db : DB) : Resp Payload × DB :=
  match parseObjectId? id with
  | none => (Resp.invalidIdError, db)
  | some oid =>
    match findOne db.scores oid with
    | none => (Resp.httpError 404 "Score not found", db)
    | some d => (Resp.ok (Payload.scoreOut d.player_name d.score), db)

/-- Handler `update_score` (PUT /player_score/id): body validation first (as
for `add_score`), then identifier parsing, then `update_one` with a `$set` of
the full payload, 404 when `matched_count == 0`. -/
def update_score (id : String) (sc : PlayerScore) (db : DB) :
    Resp Payload × DB :=
  if sc.valid then
    match parseObjectId? id with
    | none => (Resp.invalidIdError, db)
    | some oid =>
      let r := updateOne db.scores oid sc
      let db' := { db with scores := r.1 }
      if r.2 = 0 then (Resp.httpError 404 "Score not found", db')
      else (Resp.ok (Payload.message "Score updated"), db')
  else (Resp.httpError 422 "validation error", db)

/-- Handler `delete_score` (DELETE /player_score/id), mirroring
`delete_sprite` on the `scores` collection. -/
def delete_score (id : String) (db : DB) : Resp Payload × DB :=
  match parseObjectId? id with
  | none => (Resp.invalidIdError, db)
  | some oid =>
    let r := deleteOne db.scores oid
    let db' := { db with scores := r.1 }
    if r.2 = 0 then (Resp.httpError 404 "Score not found", db')
    else (Resp.ok (Payload.message "Score deleted"), db')

/-- The upload endpoint as exposed by FastAPI: `file: UploadFile = File(...)`
is a required multipart part, so a request without it is answered 422 before
the handler body runs; when the part is present the handler receives its
filename and bytes unexamined. -/
def post_upload_sprite (file? : Option (String × List Nat)) (db : DB) :
    Resp Payload × DB :=
  match file? with
  | none => (Resp.httpError 422 "field required", db)
  | some f => upload_sprite f.1 f.2 db

/-- The audio upload endpoint, mirroring `post_upload_sprite`. -/
def post_upload_audio (file? : Option (String × List Nat)) (db : DB) :
    Resp Payload × DB :=
  match file? with
  | none => (Resp.httpError 422 "field required", db)
  | some f => upload_audio f.1 f.2 db

/-- Observable events of one connection lifecycle, for the `get_db`
dependency model. -/
inductive ConnEvent where
  | clientOpened
  | responseProduced
  | errorRaised
  | clientClosed
deriving Repr, DecidableEq

/-- Connection bookkeeping for one request: the number of clients currently
open and the event log so far. -/
structure Sess where
  openClients : Nat
  log : List ConnEvent
deriving Repr, DecidableEq

/-- Step of `get_db` before the `yield`: `AsyncIOMotorClient(MONGO_URI)`
opens a fresh client for this request. -/
def openClient (s : Sess) : Sess :=
  ⟨s.openClients + 1, s.log ++ [ConnEvent.clientOpened]⟩

/-- Step of the `finally` block of `get_db`: `client.close()` releases the
connection of this request. -/
def closeClient (s : Sess) : Sess :=
  ⟨s.openClients - 1, s.log ++ [ConnEvent.clientClosed]⟩

/-- Records how the handler body exited: a returned response, or a raised
exception (`HTTPException` and `InvalidId` are both reified in `Resp`). -/
def logOutcome (r : Resp Payload) (s : Sess) : Sess :=
  match r with
  | Resp.ok _ => ⟨s.openClients, s.log ++ [ConnEvent.responseProduced]⟩
  | _ => ⟨s.openClients, s.log ++ [ConnEvent.errorRaised]⟩

/-- One full request through the `get_db` dependency: the generator opens a
client, yields the database handle to the handler body, and its
`try ... finally client.close()` runs the close after the handler has
returned or raised.  Handler exits by exception are reified as `Resp`
values, so the single path below covers every exit path of the source. -/
def runWithDb (handler : DB → Resp Payload × DB) (db : DB) (s : Sess) :
    (Resp Payload × DB) × Sess :=
  let s1 := openClient s
  let r := handler db
  let s2 := logOutcome r.1 s1
  let s3 := closeClient s2
  (r, s3)

/-- Replaces the binary content of one stored document by the empty blob,
leaving the filename alone.  Fetch responses that never expose content are
invariant under this map. -/
def eraseContent (d : FileDoc) : FileDoc := { d with content := [] }

/-- Applies `eraseContent` to every stored sprite and audio document. -/
def eraseContents (db : DB) : DB :=
  { db with
    sprites := db.sprites.map (fun p => (p.1, eraseContent p.2)),
    audio := db.audio.map (fun p => (p.1, eraseContent p.2)) }

/-! ### Helper lemmas -/

theorem hexVal_digitChar :
    ∀ m : Nat, m < 16 →
      hexVal (Nat.digitChar m) = m ∧ isHexChar (Nat.digitChar m) = true := by
  decide

theorem toHexDigits_length (w : Nat) :
    ∀ n : Nat, (toHexDigits w n).length = w := by
  induction w with
  | zero => intro n; simp [toHexDigits]
  | succ w ih => intro n; simp [toHexDigits, ih]

theorem toHexDigits_allHex (w : Nat) :
    ∀ n : Nat, (toHexDigits w n).all isHexChar = true := by
  induction w with
  | zero => intro n; simp [toHexDigits]
  | succ w ih =>
    intro n
    simp only [toHexDigits, List.all_append, ih, Bool.true_and, List.all_cons,
      List.all_nil, Bool.and_true]
    exact (hexVal_digitChar _ (Nat.mod_lt _ (by norm_num))).2

theorem foldl_toHexDigits (w : Nat) :
    ∀ n acc : Nat,
      (toHexDigits w n).foldl (fun a c => a * 16 + hexVal c) acc =
        acc * 16 ^ w + n % 16 ^ w := by
  induction w with
  | zero => intro n acc; simp [toHexDigits, Nat.mod_one]
  | succ w ih =>
    intro n acc
    rw [toHexDigits, List.foldl_append, ih]
    simp only [List.foldl_cons, List.foldl_nil]
    rw [(hexVal_digitChar _ (Nat.mod_lt _ (by norm_num))).1]
    have hpow : (16 : Nat) ^ (w + 1) = 16 * 16 ^ w := by
      rw [Nat.pow_succ, Nat.mul_comm]
    have hmod : n % (16 * 16 ^ w) = n % 16 + 16 * (n / 16 % 16 ^ w) :=
      Nat.mod_mul
    rw [hpow, hmod]; ring

theorem parse_oidToString (n : Nat) (h : n < 16 ^ 24) :
    parseObjectId? (oidToString n) = some n := by
  have hlen : (toHexDigits 24 n).length = 24 := toHexDigits_length 24 n
  have hhex : (toHexDigits 24 n).all isHexChar = true := toHexDigits_allHex 24 n
  have hfold := foldl_toHexDigits 24 n 0
  rw [Nat.mod_eq_of_lt h, Nat.zero_mul, Nat.zero_add] at hfold
  show parseObjectId? (String.mk (toHexDigits 24 n)) = some n
  unfold parseObjectId?
  rw [if_pos ⟨hlen, hhex⟩, hfold]

theorem findOne_eq_none_of_fresh {α : Type} (c : Collection α) (n : Nat)
    (h : ∀ p ∈ c, p.1 ≠ n) : findOne c n = none := by
  induction c with
  | nil => rfl
  | cons p rest ih =>
    rw [findOne, if_neg (h p (List.mem_cons_self p rest))]
    exact ih fun q hq => h q (List.mem_cons_of_mem p hq)

theorem findOne_append_fresh {α : Type} (c : Collection α) (n : Nat) (d : α)
    (h : ∀ p ∈ c, p.1 ≠ n) : findOne (c ++ [(n, d)]) n = some d := by
  induction c with
  | nil => simp [findOne]
  | cons p rest ih =>
    rw [List.cons_append, findOne, if_neg (h p (List.mem_cons_self p rest))]
    exact ih fun q hq => h q (List.mem_cons_of_mem p hq)

theorem updateOne_append_fresh {α : Type} (c : Collection α) (n : Nat)
    (d d2 : α) (h : ∀ p ∈ c, p.1 ≠ n) :
    updateOne (c ++ [(n, d)]) n d2 = (c ++ [(n, d2)], 1) := by
  induction c with
  | nil => simp [updateOne]
  | cons p rest ih =>
    rw [List.cons_append, updateOne]
    rw [if_neg (h p (List.mem_cons_self p rest))]
    rw [ih fun q hq => h q (List.mem_cons_of_mem p hq)]
    rfl

theorem updateOne_of_find_none {α : Type} (c : Collection α) (n : Nat) (d : α)
    (h : findOne c n = none) : updateOne c n d = (c, 0) := by
  induction c with
  | nil => rfl
  | cons p rest ih =>
    rw [findOne] at h
    by_cases hp : p.1 = n
    · rw [if_pos hp] at h; exact absurd h (by simp)
    · rw [if_neg hp] at h
      rw [updateOne, if_neg hp, ih h]

theorem deleteOne_of_find_none {α : Type} (c : Collection α) (n : Nat)
    (h : findOne c n = none) : deleteOne c n = (c, 0) := by
  induction c with
  | nil => rfl
  | cons p rest ih =>
    rw [findOne] at h
    by_cases hp : p.1 = n
    · rw [if_pos hp] at h; exact absurd h (by simp)
    · rw [if_neg hp] at h
      rw [deleteOne, if_neg hp, ih h]

theorem findOne_deleteOne_nodup {α : Type} (c : Collection α) (n : Nat)
    (h : (c.map Prod.fst).Nodup) : findOne (deleteOne c n).1 n = none := by
  induction c with
  | nil => rfl
  | cons p rest ih =>
    rw [List.map_cons, List.nodup_cons] at h
    by_cases hp : p.1 = n
    · rw [deleteOne, if_pos hp]
      refine findOne_eq_none_of_fresh rest n fun q hq hqn => h.1 ?_
      have hmem : q.1 ∈ List.map Prod.fst rest := List.mem_map_of_mem Prod.fst hq
      rw [hqn, ← hp] at hmem
      exact hmem
    · rw [deleteOne, if_neg hp]
      show findOne ((p :: (deleteOne rest n).1) : Collection α) n = none
      rw [findOne, if_neg hp]
      exact ih h.2

theorem updateOne_map_fst {α : Type} (c : Collection α) (n : Nat) (d : α) :
    ((updateOne c n d).1).map Prod.fst = c.map Prod.fst := by
  induction c with
  | nil => rfl
  | cons p rest ih =>
    rw [updateOne]
    by_cases hp : p.1 = n
    · rw [if_pos hp]; rfl
    · rw [if_neg hp]
      show (p :: (updateOne rest n d).1).map Prod.fst = _
      rw [List.map_cons, ih, List.map_cons]

theorem findOne_map_snd {α β : Type} (c : Collection α) (f : α → β) (n : Nat) :
    findOne (c.map fun p => (p.1, f p.2)) n = (findOne c n).map f := by
  induction c with
  | nil => rfl
  | cons p rest ih =>
    rw [List.map_cons, findOne, findOne]
    by_cases hp : p.1 = n
    · rw [if_pos hp, if_pos hp]; rfl
    · rw [if_neg hp, if_neg hp, ih]

/-! ### Claims -/

/-- Claim C1: a replace (PUT) on an identifier with no matching document in
its collection signals 404 NotFound, the replacement is not applied, no new
document is created, and the database state is unchanged — replace is an
update, never an upsert — for sprites, audio and scores alike. -/
theorem C1_replace_is_never_upsert (db : DB) (id : String) (oid : Nat)
    (fn : String) (c : List Nat) (sc : PlayerScore)
    (hid : parseObjectId? id = some oid)
    (hs : findOne db.sprites oid = none)
    (ha : findOne db.audio oid = none)
    (hsc : findOne db.scores oid = none)
    (hv : PlayerScore.valid sc = true) :
    update_sprite id fn c db = (Resp.httpError 404 "Sprite not found", db) ∧
    update_audio id fn c db = (Resp.httpError 404 "Audio not found", db) ∧
    update_score id sc db = (Resp.httpError 404 "Score not found", db) := by
  refine ⟨?_, ?_, ?_⟩
  · simp [update_sprite, hid, updateOne_of_find_none _ _ _ hs]
  · simp [update_audio, hid, updateOne_of_find_none _ _ _ ha]
  · simp [update_score, hv, hid, updateOne_of_find_none _ _ _ hsc]

theorem C1_witness :
    update_sprite "000000000000000000000001" "a" [] emptyDB =
      (Resp.httpError 404 "Sprite not found", emptyDB) ∧
    update_audio "000000000000000000000001" "a" [] emptyDB =
      (Resp.httpError 404 "Audio not found", emptyDB) ∧
    update_score "000000000000000000000001" ⟨"Ada", 0⟩ emptyDB =
      (Resp.httpError 404 "Score not found", emptyDB) :=
  C1_replace_is_never_upsert emptyDB "000000000000000000000001" 1 "a" []
    ⟨"Ada", 0⟩ (by decide) rfl rfl rfl (by decide)

/-- Claim C2 is false as stated: on a path identifier that cannot be parsed
(the string `xyz`), the uncaught `bson.errors.InvalidId` exception surfaces
as a 500 server error, which is not a client error (4xx).  The rejection
does happen before any store access and is distinct from 404, but it is not
a client error. -/
theorem C2_counterexample :
    parseObjectId? "xyz" = none ∧
    get_sprite "xyz" emptyDB = (Resp.invalidIdError, emptyDB) ∧
    statusOf (get_sprite "xyz" emptyDB).1 = 500 ∧
    isClientError (statusOf (get_sprite "xyz" emptyDB).1) = false := by
  decide

/-- Claim C2 as amended: for every GET, PUT or DELETE whose path identifier
cannot be parsed into an ObjectId, the handler rejects the request before any
store access occurs (the response does not depend on the store contents and
the state is unchanged), but the rejection surfaces as an unhandled 500
server error — distinct from 404, yet not a client error. -/
theorem C2_unparseable_id_rejected_before_store (id : String) (db : DB)
    (fn : String) (c : List Nat) (sc : PlayerScore)
    (hid : parseObjectId? id = none) :
    get_sprite id db = (Resp.invalidIdError, db) ∧
    update_sprite id fn c db = (Resp.invalidIdError, db) ∧
    delete_sprite id db = (Resp.invalidIdError, db) ∧
    get_audio id db = (Resp.invalidIdError, db) ∧
    update_audio id fn c db = (Resp.invalidIdError, db) ∧
    delete_audio id db = (Resp.invalidIdError, db) ∧
    get_score id db = (Resp.invalidIdError, db) ∧
    (PlayerScore.valid sc = true →
      update_score id sc db = (Resp.invalidIdError, db)) ∧
    delete_score id db = (Resp.invalidIdError, db) ∧
    statusOf (Resp.invalidIdError : Resp Payload) = 500 ∧
    isClientError 500 = false ∧ (500 : Nat) ≠ 404 := by
  refine ⟨?_, ?_, ?_, ?_, ?_, ?_, ?_, fun hv => ?_, ?_, rfl, by decide,
    by decide⟩
  · simp [get_sprite, hid]
  · simp [update_sprite, hid]
  · simp [delete_sprite, hid]
  · simp [get_audio, hid]
  · simp [update_audio, hid]
  · simp [delete_audio, hid]
  · simp [get_score, hid]
  · simp [update_score, hv, hid]
  · simp [delete_score, hid]

theorem C2_witness :
    get_sprite "xyz" emptyDB = (Resp.invalidIdError, emptyDB) ∧
    update_sprite "xyz" "a" [] emptyDB = (Resp.invalidIdError, emptyDB) ∧
    delete_sprite "xyz" emptyDB = (Resp.invalidIdError, emptyDB) ∧
    get_audio "xyz" emptyDB = (Resp.invalidIdError, emptyDB) ∧
    update_audio "xyz" "a" [] emptyDB = (Resp.invalidIdError, emptyDB) ∧
    delete_audio "xyz" emptyDB = (Resp.invalidIdError, emptyDB) ∧
    get_score "xyz" emptyDB = (Resp.invalidIdError, emptyDB) ∧
    (PlayerScore.valid ⟨"Ada", 0⟩ = true →
      update_score "xyz" ⟨"Ada", 0⟩ emptyDB = (Resp.invalidIdError, emptyDB)) ∧
    delete_score "xyz" emptyDB = (Resp.invalidIdError, emptyDB) ∧
    statusOf (Resp.invalidIdError : Resp Payload) = 500 ∧
    isClientError 500 = false ∧ (500 : Nat) ≠ 404 :=
  C2_unparseable_id_rejected_before_store "xyz" emptyDB "a" [] ⟨"Ada", 0⟩
    (by decide)

/-- Claim C3: score payload validation accepts exactly scores in 0..999999
and player names of length 1..50: score -1 and 1000000 are rejected, 0 and
999999 accepted; a name of length 0 is rejected, length 50 accepted, length
51 rejected; a rejection leaves the store untouched and an acceptance writes
the document. -/
theorem C3_score_validation_boundary (db : DB) :
    add_score ⟨"Ada", -1⟩ db = (Resp.httpError 422 "validation error", db) ∧
    add_score ⟨"Ada", 1000000⟩ db =
      (Resp.httpError 422 "validation error", db) ∧
    (add_score ⟨"Ada", 0⟩ db).1 =
      Resp.ok (Payload.uploaded "Score recorded" (oidToString db.nextId)) ∧
    (add_score ⟨"Ada", 0⟩ db).2.scores =
      db.scores ++ [(db.nextId, ⟨"Ada", 0⟩)] ∧
    (add_score ⟨"Ada", 999999⟩ db).1 =
      Resp.ok (Payload.uploaded "Score recorded" (oidToString db.nextId)) ∧
    (add_score ⟨"Ada", 999999⟩ db).2.scores =
      db.scores ++ [(db.nextId, ⟨"Ada", 999999⟩)] ∧
    add_score ⟨"", 42⟩ db = (Resp.httpError 422 "validation error", db) ∧
    (add_score ⟨"aaaaaaaaaaaaaaaaaaaaaaaaaaaaaaaaaaaaaaaaaaaaaaaaaa", 42⟩
        db).2.scores =
      db.scores ++
        [(db.nextId,
          ⟨"aaaaaaaaaaaaaaaaaaaaaaaaaaaaaaaaaaaaaaaaaaaaaaaaaa", 42⟩)] ∧
    add_score ⟨"aaaaaaaaaaaaaaaaaaaaaaaaaaaaaaaaaaaaaaaaaaaaaaaaaaa", 42⟩ db =
      (Resp.httpError 422 "validation error", db) := by
  have h1 : PlayerScore.valid ⟨"Ada", -1⟩ = false := by decide
  have h2 : PlayerScore.valid ⟨"Ada", 1000000⟩ = false := by decide
  have h3 : PlayerScore.valid ⟨"Ada", 0⟩ = true := by decide
  have h4 : PlayerScore.valid ⟨"Ada", 999999⟩ = true := by decide
  have h5 : PlayerScore.valid ⟨"", 42⟩ = false := by decide
  have h6 : PlayerScore.valid
      ⟨"aaaaaaaaaaaaaaaaaaaaaaaaaaaaaaaaaaaaaaaaaaaaaaaaaa", 42⟩ = true := by
    decide
  have h7 : PlayerScore.valid
      ⟨"aaaaaaaaaaaaaaaaaaaaaaaaaaaaaaaaaaaaaaaaaaaaaaaaaaa", 42⟩ = false := by
    decide
  refine ⟨?_, ?_, ?_, ?_, ?_, ?_, ?_, ?_, ?_⟩ <;>
    simp [add_score, insertOne, h1, h2, h3, h4, h5, h6, h7]

/-- Claim C4: for every valid score payload, a POST to /player_score followed
by a GET on the returned identifier yields back exactly the posted
player name and score. -/
theorem C4_score_roundtrip (db : DB) (sc : PlayerScore)
    (hv : PlayerScore.valid sc = true)
    (hfresh : ∀ p ∈ db.scores, p.1 ≠ db.nextId)
    (hbound : db.nextId < 16 ^ 24) :
    (add_score sc db).1 =
      Resp.ok (Payload.uploaded "Score recorded" (oidToString db.nextId)) ∧
    (get_score (oidToString db.nextId) (add_score sc db).2).1 =
      Resp.ok (Payload.scoreOut sc.player_name sc.score) := by
  have hparse := parse_oidToString db.nextId hbound
  constructor
  · simp [add_score, hv]
  · simp [add_score, hv, get_score, hparse, insertOne,
      findOne_append_fresh db.scores db.nextId sc hfresh]

theorem C4_witness :
    (add_score ⟨"Ada", 42⟩ emptyDB).1 =
      Resp.ok (Payload.uploaded "Score recorded" (oidToString 0)) ∧
    (get_score (oidToString 0) (add_score ⟨"Ada", 42⟩ emptyDB).2).1 =
      Resp.ok (Payload.scoreOut "Ada" 42) :=
  C4_score_roundtrip emptyDB ⟨"Ada", 42⟩ (by decide) (by decide) (by decide)

/-- Claim C5 is false as stated for sprites and audio: the handlers never
validate the filename, so an upload whose filename is the empty string (not a
non-empty string, violating the schema of section 3) is accepted and a
document with the empty filename is inserted. -/
theorem C5_counterexample :
    (upload_sprite "" [7] emptyDB).1 =
      Resp.ok (Payload.uploaded "Sprite uploaded"
        "000000000000000000000000") ∧
    (upload_sprite "" [7] emptyDB).2.sprites = [(0, ⟨"", [7]⟩)] ∧
    (upload_audio "" [7] emptyDB).1 =
      Resp.ok (Payload.uploaded "Audio file uploaded"
        "000000000000000000000000") ∧
    (upload_audio "" [7] emptyDB).2.audio = [(0, ⟨"", [7]⟩)] := by
  decide

/-- Claim C5 as amended: a score upload whose payload fails validation is
rejected with a client error and no document reaches the store; for sprite
and audio uploads only the presence of the required file part is validated
(a missing part is rejected 422 before the handler body, state unchanged),
while the filename itself is not checked: whatever it is, the document is
inserted verbatim. -/
theorem C5_upload_validation (db : DB) (fn : String) (c : List Nat)
    (sc : PlayerScore) :
    post_upload_sprite none db = (Resp.httpError 422 "field required", db) ∧
    post_upload_audio none db = (Resp.httpError 422 "field required", db) ∧
    (post_upload_sprite (some (fn, c)) db).2.sprites =
      db.sprites ++ [(db.nextId, ⟨fn, c⟩)] ∧
    (post_upload_audio (some (fn, c)) db).2.audio =
      db.audio ++ [(db.nextId, ⟨fn, c⟩)] ∧
    (PlayerScore.valid sc = false →
      add_score sc db = (Resp.httpError 422 "validation error", db)) := by
  refine ⟨rfl, rfl, ?_, ?_, fun hv => ?_⟩
  · simp [post_upload_sprite, upload_sprite, insertOne]
  · simp [post_upload_audio, upload_audio, insertOne]
  · simp [add_score, hv]

theorem C5_witness :
    add_score ⟨"", 0⟩ emptyDB =
      (Resp.httpError 422 "validation error", emptyDB) :=
  (C5_upload_validation emptyDB "f" [] ⟨"", 0⟩).2.2.2.2 (by decide)

/-- Claim C6: the identifier assigned at creation is never changed by a
successful replace: after creating a Sprite and replacing it, fetching the
same identifier returns the new filename; and `update_one` never touches the
key of any document, in any collection. -/
theorem C6_replace_preserves_identity (db : DB) (fn fn2 : String)
    (c c2 : List Nat)
    (hfresh : ∀ p ∈ db.sprites, p.1 ≠ db.nextId)
    (hbound : db.nextId < 16 ^ 24) :
    (upload_sprite fn c db).1 =
      Resp.ok (Payload.uploaded "Sprite uploaded" (oidToString db.nextId)) ∧
    (update_sprite (oidToString db.nextId) fn2 c2
        (upload_sprite fn c db).2).1 =
      Resp.ok (Payload.message "Sprite updated") ∧
    (get_sprite (oidToString db.nextId)
        (update_sprite (oidToString db.nextId) fn2 c2
          (upload_sprite fn c db).2).2).1 =
      Resp.ok (Payload.filenameOnly fn2) ∧
    (∀ (col : Collection FileDoc) (oid : Nat) (d : FileDoc),
      ((updateOne col oid d).1).map Prod.fst = col.map Prod.fst) ∧
    (∀ (col : Collection PlayerScore) (oid : Nat) (d : PlayerScore),
      ((updateOne col oid d).1).map Prod.fst = col.map Prod.fst) := by
  have hparse := parse_oidToString db.nextId hbound
  have hupd := updateOne_append_fresh db.sprites db.nextId
    (⟨fn, c⟩ : FileDoc) ⟨fn2, c2⟩ hfresh
  refine ⟨rfl, ?_, ?_, fun col oid d => updateOne_map_fst col oid d,
    fun col oid d => updateOne_map_fst col oid d⟩
  · simp [update_sprite, upload_sprite, insertOne, hparse, hupd]
  · simp [update_sprite, upload_sprite, get_sprite, insertOne, hparse, hupd,
      findOne_append_fresh db.sprites db.nextId (⟨fn2, c2⟩ : FileDoc) hfresh]

theorem C6_witness :
    (upload_sprite "old.png" [1] emptyDB).1 =
      Resp.ok (Payload.uploaded "Sprite uploaded" (oidToString 0)) ∧
    (update_sprite (oidToString 0) "new.png" [2]
        (upload_sprite "old.png" [1] emptyDB).2).1 =
      Resp.ok (Payload.message "Sprite updated") ∧
    (get_sprite (oidToString 0)
        (update_sprite (oidToString 0) "new.png" [2]
          (upload_sprite "old.png" [1] emptyDB).2).2).1 =
      Resp.ok (Payload.filenameOnly "new.png") ∧
    (∀ (col : Collection FileDoc) (oid : Nat) (d : FileDoc),
      ((updateOne col oid d).1).map Prod.fst = col.map Prod.fst) ∧
    (∀ (col : Collection PlayerScore) (oid : Nat) (d : PlayerScore),
      ((updateOne col oid d).1).map Prod.fst = col.map Prod.fst) :=
  C6_replace_preserves_identity emptyDB "old.png" "new.png" [1] [2]
    (by decide) (by decide)

/-- Claim C7: after deleting an identifier, fetching it yields not-found and
deleting it again yields not-found as well, for sprites, audio and scores
alike (given the store invariant that identifiers are unique within a
collection). -/
theorem C7_delete_then_notfound (db : DB) (id : String) (oid : Nat)
    (hid : parseObjectId? id = some oid)
    (hs : (db.sprites.map Prod.fst).Nodup)
    (ha : (db.audio.map Prod.fst).Nodup)
    (hsc : (db.scores.map Prod.fst).Nodup) :
    (get_sprite id (delete_sprite id db).2).1 =
      Resp.httpError 404 "Sprite not found" ∧
    (delete_sprite id (delete_sprite id db).2).1 =
      Resp.httpError 404 "Sprite not found" ∧
    (get_audio id (delete_audio id db).2).1 =
      Resp.httpError 404 "Audio not found" ∧
    (delete_audio id (delete_audio id db).2).1 =
      Resp.httpError 404 "Audio not found" ∧
    (get_score id (delete_score id db).2).1 =
      Resp.httpError 404 "Score not found" ∧
    (delete_score id (delete_score id db).2).1 =
      Resp.httpError 404 "Score not found" := by
  have h1 : findOne (deleteOne db.sprites oid).1 oid = none :=
    findOne_deleteOne_nodup db.sprites oid hs
  have h2 : findOne (deleteOne db.audio oid).1 oid = none :=
    findOne_deleteOne_nodup db.audio oid ha
  have h3 : findOne (deleteOne db.scores oid).1 oid = none :=
    findOne_deleteOne_nodup db.scores oid hsc
  have e1 : (delete_sprite id db).2 =
      { db with sprites := (deleteOne db.sprites oid).1 } := by
    simp only [delete_sprite, hid]; split <;> rfl
  have e2 : (delete_audio id db).2 =
      { db with audio := (deleteOne db.audio oid).1 } := by
    simp only [delete_audio, hid]; split <;> rfl
  have e3 : (delete_score id db).2 =
      { db with scores := (deleteOne db.scores oid).1 } := by
    simp only [delete_score, hid]; split <;> rfl
  refine ⟨?_, ?_, ?_, ?_, ?_, ?_⟩
  · rw [e1]; simp [get_sprite, hid, h1]
  · rw [e1]; simp [delete_sprite, hid, deleteOne_of_find_none _ _ h1]
  · rw [e2]; simp [get_audio, hid, h2]
  · rw [e2]; simp [delete_audio, hid, deleteOne_of_find_none _ _ h2]
  · rw [e3]; simp [get_score, hid, h3]
  · rw [e3]; simp [delete_score, hid, deleteOne_of_find_none _ _ h3]

theorem C7_witness :
    (get_sprite "000000000000000000000001"
        (delete_sprite "000000000000000000000001" oneDocDB).2).1 =
      Resp.httpError 404 "Sprite not found" ∧
    (delete_sprite "000000000000000000000001"
        (delete_sprite "000000000000000000000001" oneDocDB).2).1 =
      Resp.httpError 404 "Sprite not found" ∧
    (get_audio "000000000000000000000001"
        (delete_audio "000000000000000000000001" oneDocDB).2).1 =
      Resp.httpError 404 "Audio not found" ∧
    (delete_audio "000000000000000000000001"
        (delete_audio "000000000000000000000001" oneDocDB).2).1 =
      Resp.httpError 404 "Audio not found" ∧
    (get_score "000000000000000000000001"
        (delete_score "000000000000000000000001" oneDocDB).2).1 =
      Resp.httpError 404 "Score not found" ∧
    (delete_score "000000000000000000000001"
        (delete_score "000000000000000000000001" oneDocDB).2).1 =
      Resp.httpError 404 "Score not found" :=
  C7_delete_then_notfound oneDocDB "000000000000000000000001" 1
    (by decide) (by decide) (by decide) (by decide)

/-- Claim C8: a successful fetch of a Sprite or Audio resource exposes only
the stored filename: the response is invariant under erasing every stored
binary content, and on success it is exactly the filename projection of the
stored document. -/
theorem C8_fetch_exposes_only_filename (id : String) (db : DB) (oid : Nat)
    (d : FileDoc) :
    (get_sprite id db).1 = (get_sprite id (eraseContents db)).1 ∧
    (get_audio id db).1 = (get_audio id (eraseContents db)).1 ∧
    (parseObjectId? id = some oid → findOne db.sprites oid = some d →
      (get_sprite id db).1 = Resp.ok (Payload.filenameOnly d.filename)) ∧
    (parseObjectId? id = some oid → findOne db.audio oid = some d →
      (get_audio id db).1 = Resp.ok (Payload.filenameOnly d.filename)) := by
  refine ⟨?_, ?_, fun hid hd => by simp [get_sprite, hid, hd],
    fun hid hd => by simp [get_audio, hid, hd]⟩
  · cases hid : parseObjectId? id with
    | none => simp [get_sprite, hid]
    | some oid' =>
      simp only [get_sprite, hid, eraseContents,
        findOne_map_snd db.sprites eraseContent oid']
      cases findOne db.sprites oid' <;> rfl
  · cases hid : parseObjectId? id with
    | none => simp [get_audio, hid]
    | some oid' =>
      simp only [get_audio, hid, eraseContents,
        findOne_map_snd db.audio eraseContent oid']
      cases findOne db.audio oid' <;> rfl

theorem C8_witness :
    (get_sprite "000000000000000000000001" oneDocDB).1 =
      Resp.ok (Payload.filenameOnly "hero.png") ∧
    (get_audio "000000000000000000000001" oneDocDB).1 =
      Resp.ok (Payload.filenameOnly "theme.mp3") :=
  ⟨(C8_fetch_exposes_only_filename "000000000000000000000001" oneDocDB 1
      ⟨"hero.png", [9, 9]⟩).2.2.1 (by decide) (by decide),
   (C8_fetch_exposes_only_filename "000000000000000000000001" oneDocDB 1
      ⟨"theme.mp3", [8]⟩).2.2.2 (by decide) (by decide)⟩

/-- Claim C9: for every request, the connection opened by the `get_db`
dependency is closed exactly once, after the handler has produced its
response or raised an error, on every exit path (exits by exception are
reified as `Resp` values, so quantifying over all handlers covers error
paths); the open-client count returns to its baseline. -/
theorem C9_connection_released_once (handler : DB → Resp Payload × DB)
    (db : DB) (s : Sess) :
    (runWithDb handler db s).2.openClients = s.openClients ∧
    (∃ e, (e = ConnEvent.responseProduced ∨ e = ConnEvent.errorRaised) ∧
      (runWithDb handler db s).2.log =
        s.log ++ [ConnEvent.clientOpened, e, ConnEvent.clientClosed]) ∧
    (runWithDb handler db s).2.log.count ConnEvent.clientClosed =
      s.log.count ConnEvent.clientClosed + 1 ∧
    (runWithDb handler db s).2.log.getLast? = some ConnEvent.clientClosed := by
  cases hr : (handler db).1 with
  | ok p =>
    refine ⟨?_, ⟨ConnEvent.responseProduced, Or.inl rfl, ?_⟩, ?_, ?_⟩ <;>
      simp [runWithDb, openClient, closeClient, logOutcome, hr,
        List.count_append, List.getLast?_concat]
  | httpError st detail =>
    refine ⟨?_, ⟨ConnEvent.errorRaised, Or.inr rfl, ?_⟩, ?_, ?_⟩ <;>
      simp [runWithDb, openClient, closeClient, logOutcome, hr,
        List.count_append, List.getLast?_concat]
  | invalidIdError =>
    refine ⟨?_, ⟨ConnEvent.errorRaised, Or.inr rfl, ?_⟩, ?_, ?_⟩ <;>
      simp [runWithDb, openClient, closeClient, logOutcome, hr,
        List.count_append, List.getLast?_concat]

/-- Claim C10: every handler reads and writes only the collection of its own
resource kind: sprite operations leave audio and scores unchanged, audio
operations leave sprites and scores unchanged, score operations leave
sprites and audio unchanged (and the GET handlers change nothing at all). -/
theorem C10_handlers_touch_only_own_collection (db : DB) (id : String)
    (fn : String) (c : List Nat) (sc : PlayerScore) :
    ((upload_sprite fn c db).2.audio = db.audio ∧
      (upload_sprite fn c db).2.scores = db.scores) ∧
    (get_sprite id db).2 = db ∧
    ((update_sprite id fn c db).2.audio = db.audio ∧
      (update_sprite id fn c db).2.scores = db.scores) ∧
    ((delete_sprite id db).2.audio = db.audio ∧
      (delete_sprite id db).2.scores = db.scores) ∧
    ((upload_audio fn c db).2.sprites = db.sprites ∧
      (upload_audio fn c db).2.scores = db.scores) ∧
    (get_audio id db).2 = db ∧
    ((update_audio id fn c db).2.sprites = db.sprites ∧
      (update_audio id fn c db).2.scores = db.scores) ∧
    ((delete_audio id db).2.sprites = db.sprites ∧
      (delete_audio id db).2.scores = db.scores) ∧
    ((add_score sc db).2.sprites = db.sprites ∧
      (add_score sc db).2.audio = db.audio) ∧
    (get_score id db).2 = db ∧
    ((update_score id sc db).2.sprites = db.sprites ∧
      (update_score id sc db).2.audio = db.audio) ∧
    ((delete_score id db).2.sprites = db.sprites ∧
      (delete_score id db).2.audio = db.audio) := by
  have hget : ∀ dbx : DB, (get_sprite id dbx).2 = dbx := by
    intro dbx
    unfold get_sprite
    cases parseObjectId? id with
    | none => rfl
    | some oid =>
      dsimp only
      cases findOne dbx.sprites oid <;> rfl
  have hgeta : ∀ dbx : DB, (get_audio id dbx).2 = dbx := by
    intro dbx
    unfold get_audio
    cases parseObjectId? id with
    | none => rfl
    | some oid =>
      dsimp only
      cases findOne dbx.audio oid <;> rfl
  have hgetsc : ∀ dbx : DB, (get_score id dbx).2 = dbx := by
    intro dbx
    unfold get_score
    cases parseObjectId? id with
    | none => rfl
    | some oid =>
      dsimp only
      cases findOne dbx.scores oid <;> rfl
  refine ⟨⟨rfl, rfl⟩, hget db, ?_, ?_, ⟨rfl, rfl⟩, hgeta db, ?_, ?_, ?_,
    hgetsc db, ?_, ?_⟩
  · unfold update_sprite
    cases parseObjectId? id with
    | none => exact ⟨rfl, rfl⟩
    | some oid => dsimp only; split <;> exact ⟨rfl, rfl⟩
  · unfold delete_sprite
    cases parseObjectId? id with
    | none => exact ⟨rfl, rfl⟩
    | some oid => dsimp only; split <;> exact ⟨rfl, rfl⟩
  · unfold update_audio
    cases parseObjectId? id with
    | none => exact ⟨rfl, rfl⟩
    | some oid => dsimp only; split <;> exact ⟨rfl, rfl⟩
  · unfold delete_audio
    cases parseObjectId? id with
    | none => exact ⟨rfl, rfl⟩
    | some oid => dsimp only; split <;> exact ⟨rfl, rfl⟩
  · unfold add_score
    split <;> exact ⟨rfl, rfl⟩
  · unfold update_score
    split
    · cases parseObjectId? id with
      | none => exact ⟨rfl, rfl⟩
      | some oid => dsimp only; split <;> exact ⟨rfl, rfl⟩
    · exact ⟨rfl, rfl⟩
  · unfold delete_score
    cases parseObjectId? id with
    | none => exact ⟨rfl, rfl⟩
    | some oid => dsimp only; split <;> exact ⟨rfl, rfl⟩

end MultimediaService
